import Mathlib

/-!
Verification of the attendance/bunk-budget calculation engine of the
HELP-me-BUNK repository (files `attendance_calculator.py`, `app.py`,
`database.py`).

The Python arithmetic is embedded over `ℚ` (Python's true division of
non-negative integers, compared and rounded), with `Option` marking the
places where the Python code raises an exception (`ZeroDivisionError`).
The floor/ceiling/rounding helpers are phrased with the computable
`Rat.floor` so that every definition evaluates by kernel reduction;
bridge lemmas relate them to Mathlib's `Int.floor`/`Int.ceil`.
-/

namespace HelpMeBunk

/-- Computable ceiling on `ℚ`, as the negated floor of the negation. -/
def ratCeil (q : ℚ) : ℤ :=
  -(Rat.floor (-q))

/-- Python `int()` applied to a (rational-valued) float: truncation toward
zero, i.e. floor for non-negative arguments and ceiling for negative ones. -/
def pyInt (q : ℚ) : ℤ :=
  if 0 ≤ q then Rat.floor q else ratCeil q

/-- Python `round()` to an integer: banker's rounding — nearest integer,
with ties (fractional part exactly 1/2) going to the even neighbour. -/
def pyRound (q : ℚ) : ℤ :=
  if q - (Rat.floor q : ℚ) < 1 / 2 then Rat.floor q
  else if 1 / 2 < q - (Rat.floor q : ℚ) then Rat.floor q + 1
  else if Rat.floor q % 2 = 0 then Rat.floor q else Rat.floor q + 1

/-- Python `round(x, 2)`: round to two decimal places. -/
def round2 (q : ℚ) : ℚ :=
  (pyRound (q * 100) : ℚ) / 100

theorem ratFloor_eq_floor (q : ℚ) : Rat.floor q = ⌊q⌋ := by
  rw [Rat.floor_def, Rat.floor_def']

theorem ratCeil_eq_ceil (q : ℚ) : ratCeil q = ⌈q⌉ := by
  rw [ratCeil, ratFloor_eq_floor, Int.floor_neg, neg_neg]

theorem pyInt_eq (q : ℚ) : pyInt q = if 0 ≤ q then ⌊q⌋ else ⌈q⌉ := by
  rw [pyInt, ratFloor_eq_floor, ratCeil_eq_ceil]

/-- Evaluation helper: the ceiling as a negated floor (the `norm_num`
extension in scope evaluates only floors of rational literals). -/
theorem intCeil_as_neg_floor (q : ℚ) : ⌈q⌉ = -⌊-q⌋ := by
  rw [Int.floor_neg, neg_neg]

theorem pyRound_eq (q : ℚ) :
    pyRound q =
      if Int.fract q < 1 / 2 then ⌊q⌋
      else if 1 / 2 < Int.fract q then ⌊q⌋ + 1
      else if ⌊q⌋ % 2 = 0 then ⌊q⌋ else ⌊q⌋ + 1 := by
  rw [pyRound, ratFloor_eq_floor, Int.fract]

/-- `attendance_calculator.py` line 52 and `app.py` lines 1189-1190 compute
the raw (unrounded) percentage `present / total * 100`, guarded to `0`
when `total = 0`. -/
def currentPercentageRaw (present total : ℕ) : ℚ :=
  if 0 < total then (present : ℚ) / (total : ℚ) * 100 else 0

/-- `database.py` lines 346/389: the stored per-subject percentage,
`round((present / total) * 100, 2) if total > 0 else 0`. -/
def percentage (present total : ℕ) : ℚ :=
  if 0 < total then round2 ((present : ℚ) / (total : ℚ) * 100) else 0

/-! ## AttendanceCalculator (`attendance_calculator.py`)

`AttendanceCalculator.__init__` stores `target_percentage` and
`safe_target = target_percentage + safety_buffer`; the repository always
instantiates it with the defaults `target_percentage=75.0,
safety_buffer=1.0` (so `safe_target = 76`). -/

/-- The `for bunks in range(future_classes + 1)` loop of
`calculate_bunk_allowance` (lines 59-66): each iteration recomputes
`new_percentage = present / (total + future_classes) * 100`; if it is at
least `safe_target` the accumulator is set to the loop index, otherwise
the loop breaks. -/
def bunkLoop (safeTarget : ℚ) (present total future : ℕ) :
    List ℕ → ℕ → ℕ
  | [], acc => acc
  | b :: rest, acc =>
      if safeTarget ≤ (present : ℚ) / ((total : ℚ) + (future : ℚ)) * 100 then
        bunkLoop safeTarget present total future rest b
      else acc

/-- Lines 69-72 of `attendance_calculator.py`:
`classes_needed = max(0, int((safe_target * total - 100 * present) /
(100 - safe_target)) + 1)` when `current_percentage < safe_target`,
else `0`.  (The `int()` is Python truncation toward zero.) -/
def classesNeededIfBelow (safeTarget : ℚ) (present total : ℕ) : ℤ :=
  if currentPercentageRaw present total < safeTarget then
    max 0 (pyInt ((safeTarget * (total : ℚ) - 100 * (present : ℚ)) /
      (100 - safeTarget)) + 1)
  else 0

/-- The dictionary returned by `calculate_bunk_allowance`. -/
structure BunkAnalysis where
  present : ℕ
  total : ℕ
  current_percentage : ℚ
  max_safe_bunks : ℕ
  classes_needed_if_below : ℤ
  is_safe : Bool
  buffer : ℚ
  deriving Repr, DecidableEq

/-- `AttendanceCalculator.calculate_bunk_allowance(present, total,
future_classes)` with the calculator's `target_percentage` and
`safety_buffer` as the first two arguments.  Returns `none` where the
Python code raises `ZeroDivisionError`: the loop body always divides by
`total + future_classes` (even on its first iteration, which always runs),
and the `classes_needed` branch divides by `100 - safe_target`. -/
def calculateBunkAllowance (targetPercentage safetyBuffer : ℚ)
    (present total futureClasses : ℕ) : Option BunkAnalysis :=
  let safeTarget := targetPercentage + safetyBuffer
  let currentPct := currentPercentageRaw present total
  if total + futureClasses = 0 then none
  else if currentPct < safeTarget ∧ (100 : ℚ) - safeTarget = 0 then none
  else some
    { present := present
      total := total
      current_percentage := round2 currentPct
      max_safe_bunks :=
        bunkLoop safeTarget present total futureClasses
          (List.range (futureClasses + 1)) 0
      classes_needed_if_below := classesNeededIfBelow safeTarget present total
      is_safe := decide (safeTarget ≤ currentPct)
      buffer := round2 (currentPct - targetPercentage) }

end HelpMeBunk

namespace HelpMeBunk

example : pyInt (-25 / 6 : ℚ) = -4 := by
  norm_num [pyInt_eq, intCeil_as_neg_floor]
example : pyRound (5 / 2 : ℚ) = 2 := by norm_num [pyRound_eq, Int.fract]
example : pyRound (7 / 2 : ℚ) = 4 := by norm_num [pyRound_eq, Int.fract]
example : round2 (125 / 2 : ℚ) = 125 / 2 := by
  norm_num [round2, pyRound_eq, Int.fract]
example : classesNeededIfBelow 76 75 100 = 5 := by
  norm_num [classesNeededIfBelow, currentPercentageRaw, pyInt_eq]
example : classesNeededIfBelow 76 7 25 = 51 := by
  norm_num [classesNeededIfBelow, currentPercentageRaw, pyInt_eq]
example : calculateBunkAllowance 75 1 5 0 0 = none := rfl

/-! ## Characterization of the bunk loop -/

theorem bunkLoop_of_lt (s : ℚ) (p t f : ℕ)
    (h : ¬ s ≤ (p : ℚ) / ((t : ℚ) + (f : ℚ)) * 100)
    (b : ℕ) (l : List ℕ) (acc : ℕ) :
    bunkLoop s p t f (b :: l) acc = acc := by
  rw [bunkLoop, if_neg h]

theorem bunkLoop_of_le (s : ℚ) (p t f : ℕ)
    (h : s ≤ (p : ℚ) / ((t : ℚ) + (f : ℚ)) * 100) :
    ∀ (l : List ℕ) (acc : ℕ), bunkLoop s p t f l acc = l.getLastD acc
  | [], _ => rfl
  | b :: l, acc => by
    rw [bunkLoop, if_pos h, bunkLoop_of_le s p t f h l b, List.getLastD_cons]

theorem range_getLastD (f : ℕ) : (List.range (f + 1)).getLastD 0 = f := by
  rw [List.range_succ, List.getLastD_concat]

/-- The loop body's condition does not depend on the loop variable, so the
whole loop collapses: `future` iterations' worth when the percentage after
all future classes clears the safe target, `0` otherwise. -/
theorem bunkLoop_range (s : ℚ) (p t f : ℕ) :
    bunkLoop s p t f (List.range (f + 1)) 0 =
      if s ≤ (p : ℚ) / ((t : ℚ) + (f : ℚ)) * 100 then f else 0 := by
  by_cases h : s ≤ (p : ℚ) / ((t : ℚ) + (f : ℚ)) * 100
  · rw [if_pos h, bunkLoop_of_le s p t f h, range_getLastD]
  · rw [if_neg h, List.range_succ_eq_map, bunkLoop_of_lt s p t f h]

end HelpMeBunk

namespace HelpMeBunk

/-- C1.  With the repository's configuration (`target_percentage=75`,
`safety_buffer=1`, so `safe_target=76`) and `total + futureClasses > 0`,
`calculate_bunk_allowance` succeeds and its `max_safe_bunks` is
all-or-nothing: `futureClasses` when
`present / (total + futureClasses) * 100 ≥ 76`, else `0` — never a value
strictly in between. -/
theorem max_safe_bunks_all_or_nothing (p t f : ℕ) (h : 0 < t + f) :
    ∃ a, calculateBunkAllowance 75 1 p t f = some a ∧
      a.max_safe_bunks =
        if (76 : ℚ) ≤ (p : ℚ) / ((t : ℚ) + (f : ℚ)) * 100 then f else 0 := by
  have h0 : ¬ (t + f = 0) := by omega
  have h1 : ¬ (currentPercentageRaw p t < 75 + 1 ∧
      (100 : ℚ) - (75 + 1) = 0) := by norm_num
  simp only [calculateBunkAllowance, if_neg h0, if_neg h1]
  refine ⟨_, rfl, ?_⟩
  show bunkLoop (75 + 1) p t f (List.range (f + 1)) 0 = _
  rw [bunkLoop_range]
  norm_num

/-- Witness for C1 at the spec's own test case `(75, 100, 20)`:
`75 / 120 * 100 = 62.5 < 76`, so `max_safe_bunks = 0`. -/
theorem max_safe_bunks_all_or_nothing_witness :
    0 < 100 + 20 ∧ ∃ a, calculateBunkAllowance 75 1 75 100 20 = some a ∧
      a.max_safe_bunks = 0 := by
  refine ⟨by norm_num, ?_⟩
  obtain ⟨a, ha, hb⟩ := max_safe_bunks_all_or_nothing 75 100 20 (by norm_num)
  refine ⟨a, ha, ?_⟩
  rw [hb]
  norm_num

/-- C2.  The claim says `calculate_bunk_allowance` never raises and handles
`total = 0`; but with `total = 0` and `future_classes = 0` (the default
argument!) the loop's first iteration computes
`present / (total + future_classes)` with a zero denominator and raises
`ZeroDivisionError`.  The embedding returns `none` there. -/
theorem calculate_bunk_allowance_raises_on_zero :
    calculateBunkAllowance 75 1 0 0 0 = none :=
  rfl

/-! ## Minimality analysis of `classes_needed_if_below` (claim C4) -/

theorem max_pyInt_succ_of_nonneg {q : ℚ} (hq : 0 ≤ q) :
    max 0 (pyInt q + 1) = ⌊q⌋ + 1 := by
  rw [pyInt_eq, if_pos hq]
  have := Int.floor_nonneg.2 hq
  omega

theorem max_pyInt_succ_of_le_neg_one {q : ℚ} (hq : q ≤ -1) :
    max 0 (pyInt q + 1) = 0 := by
  rw [pyInt_eq, if_neg (by linarith)]
  have : ⌈q⌉ ≤ -1 := Int.ceil_le.2 (by exact_mod_cast hq)
  omega

/-- Strict-threshold characterization: an integer `x` of extra attended
classes pushes the percentage strictly above 76 iff `x` exceeds the
quotient `(76 t - 100 p) / 24`. -/
theorem strict_threshold_iff (p t : ℕ) (x : ℤ) :
    (100 * ((p : ℤ) + x) > 76 * ((t : ℤ) + x)) ↔
      ((76 * (t : ℚ) - 100 * (p : ℚ)) / (100 - 76) < (x : ℚ)) := by
  rw [gt_iff_lt, ← @Int.cast_lt ℚ]
  rw [div_lt_iff₀ (by norm_num : (0 : ℚ) < 100 - 76)]
  push_cast
  constructor <;> intro h <;> nlinarith

/-- C4 amended.  When the current percentage is below the safe target 76,
`classes_needed_if_below` is the smallest non-negative integer `x` with
`100 (present + x) > 76 (total + x)` — the percentage after attending `x`
more classes STRICTLY exceeds 76 (not `≥ 76` as the claim says); when the
current percentage is at or above 76 it is `0`. -/
theorem classes_needed_least_strict (p t : ℕ) :
    (currentPercentageRaw p t < 76 →
      (100 * ((p : ℤ) + classesNeededIfBelow 76 p t) >
          76 * ((t : ℤ) + classesNeededIfBelow 76 p t)) ∧
        ∀ m : ℕ, (m : ℤ) < classesNeededIfBelow 76 p t →
          ¬ (100 * ((p : ℤ) + (m : ℤ)) > 76 * ((t : ℤ) + (m : ℤ)))) ∧
    (76 ≤ currentPercentageRaw p t → classesNeededIfBelow 76 p t = 0) := by
  constructor
  · intro hlt
    set q : ℚ := (76 * (t : ℚ) - 100 * (p : ℚ)) / (100 - 76) with hqdef
    have hn : classesNeededIfBelow 76 p t = max 0 (pyInt q + 1) := by
      rw [classesNeededIfBelow, if_pos hlt]
    rcases Nat.eq_zero_or_pos t with ht | ht
    · subst ht
      rcases Nat.eq_zero_or_pos p with hp | hp
      · subst hp
        have hq0 : q = 0 := by rw [hqdef]; norm_num
        have : classesNeededIfBelow 76 0 0 = 1 := by
          rw [hn, hq0, max_pyInt_succ_of_nonneg le_rfl]
          norm_num
        rw [this]
        constructor
        · norm_num
        · intro m hm
          have hm0 : m = 0 := by omega
          subst hm0
          norm_num
      · have hq1 : q ≤ -1 := by
          rw [hqdef]
          rw [div_le_iff₀ (by norm_num : (0 : ℚ) < 100 - 76)]
          have : (1 : ℚ) ≤ (p : ℚ) := by exact_mod_cast hp
          push_cast
          nlinarith
        have hzero : classesNeededIfBelow 76 p 0 = 0 := by
          rw [hn, max_pyInt_succ_of_le_neg_one hq1]
        rw [hzero]
        constructor
        · have : (1 : ℤ) ≤ (p : ℤ) := by exact_mod_cast hp
          push_cast
          omega
        · intro m hm
          omega
    · have htq : (0 : ℚ) < (t : ℚ) := by exact_mod_cast ht
      have hlt' : (p : ℚ) / (t : ℚ) * 100 < 76 := by
        rw [currentPercentageRaw, if_pos ht] at hlt
        exact hlt
      have hq0 : 0 ≤ q := by
        rw [hqdef]
        apply div_nonneg _ (by norm_num)
        rw [div_mul_eq_mul_div, div_lt_iff₀ htq] at hlt'
        nlinarith
      have hfloor : classesNeededIfBelow 76 p t = ⌊q⌋ + 1 := by
        rw [hn, max_pyInt_succ_of_nonneg hq0]
      rw [hfloor]
      constructor
      · rw [strict_threshold_iff, ← hqdef]
        push_cast
        exact Int.lt_floor_add_one q
      · intro m hm
        rw [strict_threshold_iff, ← hqdef]
        push_cast
        rw [not_lt]
        have : (m : ℤ) ≤ ⌊q⌋ := by omega
        calc (m : ℚ) = ((m : ℤ) : ℚ) := by push_cast; ring
          _ ≤ (⌊q⌋ : ℚ) := by exact_mod_cast this
          _ ≤ q := Int.floor_le q
  · intro hge
    rw [classesNeededIfBelow, if_neg (not_lt.2 hge)]

/-- Witness for the two branches of the amended C4, at `(7, 25)`
(28% < 76, needs a strictly-above push) and `(19, 25)` (exactly 76%,
needs nothing). -/
theorem classes_needed_least_strict_witness :
    (100 * ((7 : ℤ) + classesNeededIfBelow 76 7 25) >
        76 * ((25 : ℤ) + classesNeededIfBelow 76 7 25)) ∧
      classesNeededIfBelow 76 19 25 = 0 :=
  ⟨((classes_needed_least_strict 7 25).1
      (by norm_num [currentPercentageRaw])).1,
    (classes_needed_least_strict 19 25).2
      (by norm_num [currentPercentageRaw])⟩

/-- Counterexample to C4 as stated: at `present = 7, total = 25` (current
percentage 28 < 76) the code returns `51`, yet already `x = 50 < 51`
reaches `(7+50)/(25+50)*100 = 76 ≥ 76`, so `51` is not the smallest such
`x`. -/
theorem classes_needed_not_least :
    currentPercentageRaw 7 25 < 76 ∧ classesNeededIfBelow 76 7 25 = 51 ∧
      (76 : ℚ) ≤ ((7 : ℚ) + 50) / ((25 : ℚ) + 50) * 100 ∧ (50 : ℤ) < 51 := by
  refine ⟨by norm_num [currentPercentageRaw], ?_, by norm_num, by norm_num⟩
  norm_num [classesNeededIfBelow, currentPercentageRaw, pyInt_eq]

end HelpMeBunk

namespace HelpMeBunk

/-! ## Predictive analytics (`app.py`, `get_predictions`, lines 1136-1257)

The route reads the configured `target_percentage` into `target_pct`
(line 1141) and then never uses it: the per-subject computation hard-codes
`0.75` (line 1185) and the breakpoints `75`/`85` (lines 1197-1213).
`remaining_classes = remaining_weeks * classes_per_week` is a non-negative
integer; the per-subject record's `percentage` field is the stored value,
derived as in `database.py`. -/

/-- One element of the `predictions` list built by `get_predictions`. -/
structure Prediction where
  present : ℕ
  total : ℕ
  remaining_classes : ℕ
  current_pct : ℚ
  if_attend_all : ℚ
  at_current_rate : ℚ
  classes_needed : ℤ
  can_skip : ℤ
  risk_level : String
  deriving Repr, DecidableEq

/-- The per-subject body of `get_predictions` (`app.py` lines 1168-1229).
`targetPct` is the configured target percentage (line 1141), which the
body never reads.  `(3 / 4 : ℚ)` is the literal `0.75` of line 1185
(exact in binary floating point). -/
def predictSubject (targetPct : ℚ) (present total remainingClasses : ℕ) :
    Prediction :=
  let current_pct := percentage present total
  let if_attend_all_pct : ℚ :=
    if 0 < total + remainingClasses then
      round2 (((present : ℚ) + (remainingClasses : ℚ)) /
        ((total : ℚ) + (remainingClasses : ℚ)) * 100)
    else 0
  let needed_for_75 : ℤ :=
    max 0 (⌈(3 / 4 : ℚ) * ((total : ℚ) + (remainingClasses : ℚ))⌉ -
      (present : ℤ))
  let can_skip : ℤ := max 0 ((remainingClasses : ℤ) - needed_for_75)
  let projected_pct : ℚ :=
    if 0 < total then
      round2 ((((present : ℤ) +
          pyInt ((remainingClasses : ℚ) * ((present : ℚ) / (total : ℚ)))) : ℚ) /
        ((total : ℚ) + (remainingClasses : ℚ)) * 100)
    else 0
  let risk_level : String :=
    if current_pct < 75 then
      if needed_for_75 > (remainingClasses : ℤ) then "critical" else "danger"
    else if current_pct < 85 then "warning"
    else "safe"
  { present := present
    total := total
    remaining_classes := remainingClasses
    current_pct := current_pct
    if_attend_all := if_attend_all_pct
    at_current_rate := projected_pct
    classes_needed := needed_for_75
    can_skip := can_skip
    risk_level := risk_level }

theorem predictSubject_current_pct (tp : ℚ) (p t r : ℕ) :
    (predictSubject tp p t r).current_pct = percentage p t := rfl

theorem predictSubject_if_attend_all (tp : ℚ) (p t r : ℕ) :
    (predictSubject tp p t r).if_attend_all =
      if 0 < t + r then
        round2 (((p : ℚ) + (r : ℚ)) / ((t : ℚ) + (r : ℚ)) * 100)
      else 0 := rfl

theorem predictSubject_classes_needed (tp : ℚ) (p t r : ℕ) :
    (predictSubject tp p t r).classes_needed =
      max 0 (⌈(3 / 4 : ℚ) * ((t : ℚ) + (r : ℚ))⌉ - (p : ℤ)) := rfl

theorem predictSubject_can_skip (tp : ℚ) (p t r : ℕ) :
    (predictSubject tp p t r).can_skip =
      max 0 ((r : ℤ) - (predictSubject tp p t r).classes_needed) := rfl

theorem predictSubject_at_current_rate (tp : ℚ) (p t r : ℕ) :
    (predictSubject tp p t r).at_current_rate =
      if 0 < t then
        round2 ((((p : ℤ) +
            pyInt ((r : ℚ) * ((p : ℚ) / (t : ℚ)))) : ℚ) /
          ((t : ℚ) + (r : ℚ)) * 100)
      else 0 := rfl

theorem predictSubject_risk_level (tp : ℚ) (p t r : ℕ) :
    (predictSubject tp p t r).risk_level =
      if percentage p t < 75 then
        if (predictSubject tp p t r).classes_needed > (r : ℤ) then "critical"
        else "danger"
      else if percentage p t < 85 then "warning"
      else "safe" := rfl

/-! ## Aggregate statistics (`app.py`, `get_latest_data`, lines 357-372) -/

/-- A per-subject attendance record as stored for a user: attended and
conducted counts (the stored `percentage` field is derived from them,
`database.py` lines 346/389). -/
structure SubjectRecord where
  present : ℕ
  total : ℕ
  deriving Repr, DecidableEq

/-- `total_present_all = sum(s['present'] for s in enhanced_subjects)`
(line 365), as the left fold the Python generator performs. -/
def totalPresentAll (subs : List SubjectRecord) : ℕ :=
  subs.foldl (fun acc s => acc + s.present) 0

/-- `total_classes_all = sum(s['total'] for s in enhanced_subjects)`
(line 366). -/
def totalClassesAll (subs : List SubjectRecord) : ℕ :=
  subs.foldl (fun acc s => acc + s.total) 0

/-- Lines 369-372: the overall attendance percentage, pooled over all
subjects, `0` when no classes at all. -/
def overallAttendance (subs : List SubjectRecord) : ℚ :=
  if 0 < totalClassesAll subs then
    (totalPresentAll subs : ℚ) / (totalClassesAll subs : ℚ) * 100
  else 0

/-- Line 360: `sum(1 for s in enhanced_subjects if s['percentage'] >= 85)`. -/
def safeCount (subs : List SubjectRecord) : ℕ :=
  subs.countP (fun s => decide (85 ≤ percentage s.present s.total))

/-- Line 361: subjects with `75 <= percentage < 85`. -/
def warningCount (subs : List SubjectRecord) : ℕ :=
  subs.countP (fun s =>
    decide (75 ≤ percentage s.present s.total ∧
      percentage s.present s.total < 85))

/-- Line 362: subjects with `percentage < 75`. -/
def dangerCount (subs : List SubjectRecord) : ℕ :=
  subs.countP (fun s => decide (percentage s.present s.total < 75))

/-- The spec's `sum(present)` over a collection of subject records. -/
def specSumPresent (subs : List SubjectRecord) : ℕ :=
  (subs.map (fun s => s.present)).sum

/-- The spec's `sum(total)` over a collection of subject records. -/
def specSumTotal (subs : List SubjectRecord) : ℕ :=
  (subs.map (fun s => s.total)).sum

/-- Modelled from the spec (§4.4), for the refinement claim C6: `overall
percentage = sum(present)/sum(total)*100`, and `0` when `sum(total)=0`. -/
def specOverallPercentage (subs : List SubjectRecord) : ℚ :=
  if specSumTotal subs = 0 then 0
  else (specSumPresent subs : ℚ) / (specSumTotal subs : ℚ) * 100

end HelpMeBunk

namespace HelpMeBunk

/-! ## Monotonicity of the rounding helpers -/

theorem pyRound_le_floor_add_one (q : ℚ) : pyRound q ≤ ⌊q⌋ + 1 := by
  rw [pyRound_eq]
  split_ifs <;> omega

theorem floor_le_pyRound (q : ℚ) : ⌊q⌋ ≤ pyRound q := by
  rw [pyRound_eq]
  split_ifs <;> omega

theorem pyRound_mono {q r : ℚ} (h : q ≤ r) : pyRound q ≤ pyRound r := by
  have hf : ⌊q⌋ ≤ ⌊r⌋ := Int.floor_le_floor h
  rcases lt_or_eq_of_le hf with hlt | heq
  · have h1 := pyRound_le_floor_add_one q
    have h2 := floor_le_pyRound r
    omega
  · have hfr : Int.fract q ≤ Int.fract r := by
      rw [Int.fract, Int.fract, ← heq]
      linarith
    rw [pyRound_eq, pyRound_eq, ← heq]
    split_ifs <;> first | omega | linarith

theorem round2_mono {q r : ℚ} (h : q ≤ r) : round2 q ≤ round2 r := by
  have h1 : pyRound (q * 100) ≤ pyRound (r * 100) :=
    pyRound_mono (by linarith)
  have h2 : ((pyRound (q * 100) : ℚ)) ≤ ((pyRound (r * 100) : ℚ)) := by
    exact_mod_cast h1
  rw [round2, round2]
  linarith

theorem pyRound_zero : pyRound 0 = 0 := by
  rw [pyRound_eq]
  norm_num [Int.fract]

theorem round2_nonneg {q : ℚ} (h : 0 ≤ q) : 0 ≤ round2 q := by
  have h1 : pyRound 0 ≤ pyRound (q * 100) := pyRound_mono (by linarith)
  rw [pyRound_zero] at h1
  have h2 : (0 : ℚ) ≤ ((pyRound (q * 100) : ℚ)) := by exact_mod_cast h1
  rw [round2]
  linarith

/-! ## Claims C3, C7, C8 on `get_predictions` -/

/-- C3 amended.  `classes_needed_75 = max(0, ceil(0.75*future_total) -
present)` is never negative, and `can_skip = max(0, remaining -
classes_needed_75)` is never negative either; but (contrary to the claim)
`classes_needed_75` is NOT clamped above by `remaining_classes` — the
`can_skip` guard, not a clamp on `classes_needed`, keeps `can_skip ≥ 0`. -/
theorem classes_needed_can_skip_nonneg (p t r : ℕ) :
    0 ≤ (predictSubject 75 p t r).classes_needed ∧
      0 ≤ (predictSubject 75 p t r).can_skip := by
  rw [predictSubject_classes_needed, predictSubject_can_skip]
  exact ⟨le_max_left _ _, le_max_left _ _⟩

/-- Counterexample to C3 as stated: with `present = 0, total = 100,
remaining_classes = 4`, the code computes `classes_needed_75 =
ceil(0.75*104) = 78`, which exceeds `remaining_classes = 4` — there is no
clamp to `[0, remainingClasses]`. -/
theorem classes_needed_exceeds_remaining :
    (predictSubject 75 0 100 4).classes_needed = 78 ∧
      ((predictSubject 75 0 100 4).remaining_classes : ℤ) < 78 := by
  constructor
  · rw [predictSubject_classes_needed]
    norm_num [intCeil_as_neg_floor]
  · norm_num [predictSubject]

/-- C8.  The predictions computation is independent of the configured
target percentage: `target_pct` is read (line 1141) but the body uses the
fixed constants `0.75`, `75` and `85`, so two runs that differ only in the
configured target produce identical outputs in every field. -/
theorem predictions_ignore_configured_target (t₁ t₂ : ℚ)
    (p t r : ℕ) : predictSubject t₁ p t r = predictSubject t₂ p t r := rfl

/-- C7 amended.  With `remaining_classes = 0` the projection only partially
degenerates: `can_skip = 0` and the attend-all projection equals the
current (stored) percentage, but `classes_needed_75` is NOT forced to `0`:
it is `max(0, ceil(0.75*total) - present)`, positive whenever attendance
so far is below 75%. -/
theorem remaining_zero_degenerate (p t : ℕ) :
    (predictSubject 75 p t 0).can_skip = 0 ∧
      (predictSubject 75 p t 0).if_attend_all =
        (predictSubject 75 p t 0).current_pct ∧
      (predictSubject 75 p t 0).classes_needed =
        max 0 (⌈(3 / 4 : ℚ) * (t : ℚ)⌉ - (p : ℤ)) := by
  refine ⟨?_, ?_, ?_⟩
  · rw [predictSubject_can_skip, predictSubject_classes_needed]
    have h := le_max_left 0 (⌈(3 / 4 : ℚ) * ((t : ℚ) + (0 : ℕ))⌉ - (p : ℤ))
    omega
  · rw [predictSubject_if_attend_all, predictSubject_current_pct, percentage]
    norm_num
  · rw [predictSubject_classes_needed]
    norm_num

/-- Counterexample to C7 as stated: `present = 0, total = 4,
remaining_classes = 0` yields `classes_needed_75 = ceil(0.75*4) = 3 ≠ 0`
— the claimed collapse `classesNeeded = 0` does not happen in
`get_predictions`. -/
theorem remaining_zero_classes_needed_nonzero :
    (predictSubject 75 0 4 0).classes_needed = 3 := by
  rw [predictSubject_classes_needed]
  norm_num [intCeil_as_neg_floor]

end HelpMeBunk

namespace HelpMeBunk

/-- C5.  The risk tiers of `get_predictions` (fixed breakpoints 75/85):
`critical` when the stored percentage is below 75 and more classes are
needed than remain; `danger` when below 75 otherwise; `warning` on
`[75, 85)` (so exactly 75 is `warning`, not `danger`); `safe` on
`[85, ∞)` (so exactly 85 is `safe`, not `warning`). -/
theorem risk_level_tiers (p t r : ℕ) :
    (percentage p t < 75 → (r : ℤ) < (predictSubject 75 p t r).classes_needed →
      (predictSubject 75 p t r).risk_level = "critical") ∧
    (percentage p t < 75 → (predictSubject 75 p t r).classes_needed ≤ (r : ℤ) →
      (predictSubject 75 p t r).risk_level = "danger") ∧
    (75 ≤ percentage p t → percentage p t < 85 →
      (predictSubject 75 p t r).risk_level = "warning") ∧
    (85 ≤ percentage p t → (predictSubject 75 p t r).risk_level = "safe") := by
  refine ⟨?_, ?_, ?_, ?_⟩
  · intro h1 h2
    rw [predictSubject_risk_level, if_pos h1, if_pos h2]
  · intro h1 h2
    rw [predictSubject_risk_level, if_pos h1, if_neg (not_lt.2 h2)]
  · intro h1 h2
    rw [predictSubject_risk_level, if_neg (not_lt.2 h1), if_pos h2]
  · intro h1
    rw [predictSubject_risk_level, if_neg (not_lt.2 (by linarith)),
      if_neg (not_lt.2 h1)]

/-- Witness for C5, one concrete subject per tier, including both boundary
percentages: 0% with 78 > 4 needed → critical; 0% with 78 ≤ 100 → danger;
exactly 75% → warning; exactly 85% → safe. -/
theorem risk_level_tiers_witness :
    (predictSubject 75 0 100 4).risk_level = "critical" ∧
      (predictSubject 75 0 4 100).risk_level = "danger" ∧
      (predictSubject 75 3 4 10).risk_level = "warning" ∧
      (predictSubject 75 17 20 10).risk_level = "safe" := by
  refine ⟨?_, ?_, ?_, ?_⟩
  · refine (risk_level_tiers 0 100 4).1 ?_ ?_
    · norm_num [percentage, round2, pyRound_eq, Int.fract]
    · rw [predictSubject_classes_needed]
      norm_num [intCeil_as_neg_floor]
  · refine (risk_level_tiers 0 4 100).2.1 ?_ ?_
    · norm_num [percentage, round2, pyRound_eq, Int.fract]
    · rw [predictSubject_classes_needed]
      norm_num [intCeil_as_neg_floor]
  · refine (risk_level_tiers 3 4 10).2.2.1 ?_ ?_ <;>
      norm_num [percentage, round2, pyRound_eq, Int.fract]
  · refine (risk_level_tiers 17 20 10).2.2.2 ?_
    norm_num [percentage, round2, pyRound_eq, Int.fract]

/-- C9.  For `present ≤ total`, projecting at the historical attendance
rate never beats attending everything: the truncated
`present + int(remaining * present/total)` is at most
`present + remaining` over the same future total, and rounding to two
decimals is monotone. -/
theorem at_current_rate_le_attend_all (p t r : ℕ) (h : p ≤ t) :
    (predictSubject 75 p t r).at_current_rate ≤
      (predictSubject 75 p t r).if_attend_all := by
  rw [predictSubject_at_current_rate, predictSubject_if_attend_all]
  rcases Nat.eq_zero_or_pos t with ht | ht
  · subst ht
    have hp : p = 0 := Nat.le_zero.1 h
    subst hp
    rw [if_neg (lt_irrefl 0)]
    rcases Nat.eq_zero_or_pos r with hr | hr
    · subst hr
      norm_num
    · rw [if_pos (by omega : 0 < 0 + r)]
      apply round2_nonneg
      positivity
  · rw [if_pos ht, if_pos (by omega : 0 < t + r)]
    apply round2_mono
    have htq : (0 : ℚ) < (t : ℚ) := by exact_mod_cast ht
    have hx0 : (0 : ℚ) ≤ (r : ℚ) * ((p : ℚ) / (t : ℚ)) := by positivity
    have hpt : (p : ℚ) / (t : ℚ) ≤ 1 := by
      rw [div_le_one htq]
      exact_mod_cast h
    have hxr : (r : ℚ) * ((p : ℚ) / (t : ℚ)) ≤ (r : ℚ) := by
      nlinarith [Nat.cast_nonneg (α := ℚ) r]
    have hfl : ((pyInt ((r : ℚ) * ((p : ℚ) / (t : ℚ))) : ℚ)) ≤ (r : ℚ) := by
      rw [pyInt_eq, if_pos hx0]
      have h2 : ((⌊(r : ℚ) * ((p : ℚ) / (t : ℚ))⌋ : ℚ)) ≤
          (r : ℚ) * ((p : ℚ) / (t : ℚ)) := Int.floor_le _
      linarith
    have hden : (0 : ℚ) < (t : ℚ) + (r : ℚ) := by positivity
    have hnum : (((p : ℤ) + pyInt ((r : ℚ) * ((p : ℚ) / (t : ℚ)))) : ℚ) ≤
        (p : ℚ) + (r : ℚ) := by
      push_cast
      linarith
    gcongr

/-- Witness for C9 at the spec's test subject `{present: 30, total: 40}`
with 10 remaining classes. -/
theorem at_current_rate_le_attend_all_witness :
    30 ≤ 40 ∧ (predictSubject 75 30 40 10).at_current_rate ≤
      (predictSubject 75 30 40 10).if_attend_all :=
  ⟨by norm_num, at_current_rate_le_attend_all 30 40 10 (by norm_num)⟩

end HelpMeBunk

namespace HelpMeBunk

/-! ## Claims C6 and C10 on the aggregate statistics -/

theorem foldl_add_map (f : SubjectRecord → ℕ) :
    ∀ (l : List SubjectRecord) (n : ℕ),
      l.foldl (fun acc s => acc + f s) n = n + (l.map f).sum
  | [], n => by simp
  | a :: l, n => by
    simp only [List.foldl_cons, List.map_cons, List.sum_cons,
      foldl_add_map f l]
    omega

theorem totalPresentAll_eq (subs : List SubjectRecord) :
    totalPresentAll subs = specSumPresent subs := by
  have h := foldl_add_map (fun s => s.present) subs 0
  simpa [totalPresentAll, specSumPresent] using h

theorem totalClassesAll_eq (subs : List SubjectRecord) :
    totalClassesAll subs = specSumTotal subs := by
  have h := foldl_add_map (fun s => s.total) subs 0
  simpa [totalClassesAll, specSumTotal] using h

/-- C6.  The overall percentage pools the raw counts —
`sum(present) / sum(total) * 100`, and `0` when `sum(total) = 0` — and it
is NOT the arithmetic mean of the per-subject percentages: the two differ
already on `[{present: 9, total: 10}, {present: 1, total: 20}]`
(pooled 33.33… vs mean 47.5). -/
theorem overall_is_pooled :
    (∀ subs : List SubjectRecord,
        overallAttendance subs = specOverallPercentage subs) ∧
      overallAttendance [⟨9, 10⟩, ⟨1, 20⟩] ≠
        (percentage 9 10 + percentage 1 20) / 2 := by
  constructor
  · intro subs
    rw [overallAttendance, specOverallPercentage, totalPresentAll_eq,
      totalClassesAll_eq]
    rcases Nat.eq_zero_or_pos (specSumTotal subs) with h0 | h0
    · rw [h0]
      norm_num
    · rw [if_pos h0, if_neg (by omega)]
  · have hp : totalPresentAll [⟨9, 10⟩, ⟨1, 20⟩] = 10 := rfl
    have hc : totalClassesAll [⟨9, 10⟩, ⟨1, 20⟩] = 30 := rfl
    rw [overallAttendance, hp, hc, if_pos (by norm_num)]
    have h90 : percentage 9 10 = 90 := by
      norm_num [percentage, round2, pyRound_eq, Int.fract]
    have h5 : percentage 1 20 = 5 := by
      norm_num [percentage, round2, pyRound_eq, Int.fract]
    rw [h90, h5]
    norm_num

/-- C10.  The three risk buckets of `get_latest_data` partition the
subject list: every subject's stored percentage falls in exactly one of
`[85, ∞)`, `[75, 85)`, `(-∞, 75)`, so the counts sum to the list length. -/
theorem risk_counts_partition (subs : List SubjectRecord) :
    safeCount subs + warningCount subs + dangerCount subs = subs.length := by
  induction subs with
  | nil => rfl
  | cons a l ih =>
    rw [safeCount, warningCount, dangerCount] at ih ⊢
    simp only [List.countP_cons, decide_eq_true_eq, List.length_cons]
    set x := percentage a.present a.total with hx
    rcases lt_or_le x 75 with h | h
    · rw [if_neg (by intro hc; linarith : ¬ (85 : ℚ) ≤ x),
        if_neg (by rintro ⟨h75, _⟩; linarith :
          ¬ ((75 : ℚ) ≤ x ∧ x < 85)), if_pos h]
      omega
    · rcases lt_or_le x 85 with h2 | h2
      · rw [if_neg (by intro hc; linarith : ¬ (85 : ℚ) ≤ x),
          if_pos ⟨h, h2⟩, if_neg (by intro hc; linarith : ¬ x < (75 : ℚ))]
        omega
      · rw [if_pos h2,
          if_neg (by rintro ⟨_, h85⟩; linarith :
            ¬ ((75 : ℚ) ≤ x ∧ x < 85)),
          if_neg (by intro hc; linarith : ¬ x < (75 : ℚ))]
        omega

end HelpMeBunk
